import Mathlib

/-!
# Greencart backend — order creation and payment reconciliation

A shallow embedding of the order-creation / stock / idempotency workflow
(`app/services/orders.py`) and the payment webhook reconciliation
(`app/services/payments.py`) of the Greencart backend, together with proofs of
the behavioural properties claimed by the specification.

The database is modelled as an explicit state (`DB`) holding the product and
order rows; each service function becomes a pure function `DB → args → DB × result`,
where an error result leaves the state component equal to the input state
(mirroring that the Python code raises its exceptions before any mutation and
only commits in the success paths).
-/

namespace Greencart

/-! ## Data model (app/models.py) -/

/-- Publication status of a product (`ProductStatus` in models.py). -/
inductive ProductStatus
  | draft
  | published
  | archived
deriving DecidableEq, Repr

/-- Order lifecycle status (`OrderStatus` in models.py). -/
inductive OrderStatus
  | draft
  | pending
  | paid
  | shipped
  | completed
  | cancelled
  | refunded
deriving DecidableEq, Repr

/-- A product row. Stock is an `Int` (the SQL column is a plain integer with no
check constraint, so negative values are representable). -/
structure Product where
  id : Int
  producer_id : Int
  title : String
  price_cents : Int
  promo_price_cents : Option Int
  stock : Int
  status : ProductStatus
  is_published : Bool
  impact_co2_g : Option Int
deriving DecidableEq, Repr

/-- An order line row. `reference_price_cents` is `some v` when the code wrote
the value `v` into the column. -/
structure OrderLine where
  product_id : Option Int
  product_title : String
  quantity : Int
  unit_price_cents : Int
  reference_price_cents : Option Int
  subtotal_cents : Int
  impact_co2_g : Option Int
deriving DecidableEq, Repr

/-- An order row together with its lines. -/
structure Order where
  id : Int
  user_id : Int
  status : OrderStatus
  currency : String
  total_amount_cents : Int
  total_items : Int
  total_impact_co2_g : Int
  payment_reference : Option String
  payment_provider : Option String
  idempotency_key : Option String
  notes : Option String
  lines : List OrderLine
deriving DecidableEq, Repr

/-- The persistent state: product rows and order rows, plus the id the next
inserted order will receive. -/
structure DB where
  products : List Product
  orders : List Order
  nextOrderId : Int
deriving DecidableEq, Repr

/-! ## Request schemas (app/schemas.py) -/

/-- `OrderItemInput`: one requested line (`product_id`, `quantity`). -/
structure OrderItemInput where
  product_id : Int
  quantity : Int
deriving DecidableEq, Repr

/-- `OrderCreate`: the create-order payload. -/
structure OrderCreate where
  items : List OrderItemInput
  notes : Option String
deriving DecidableEq, Repr

/-! ## Order service (app/services/orders.py) -/

/-- The exceptions `create_order` can raise, with their message payloads. -/
inductive OrderErr
  | orderValidationError (msg : String)
  | productUnavailableError (msg : String)
  | outOfStockError (msg : String)
deriving DecidableEq, Repr

/-- Result of `create_order`: either `(order, created)` or a raised exception. -/
inductive CreateResult
  | ok (order : Order) (created : Bool)
  | err (e : OrderErr)
deriving DecidableEq, Repr

/-- The literal Postman placeholder value checked at orders.py line 73. -/
def uuidPlaceholder : String := "\x7b\x7b$uuid\x7d\x7d"

/-- The idempotency short-circuit lookup (orders.py lines 76–82): first order
row with this `user_id` and `idempotency_key`. -/
def findOrderByUserKey (orders : List Order) (userId : Int) (key : String) : Option Order :=
  orders.find? (fun o => o.user_id == userId && o.idempotency_key == some key)

/-- Lookup of a product row by primary key (the batch fetch builds the
`products` dict keyed by id). -/
def findProduct (products : List Product) (pid : Int) : Option Product :=
  products.find? (fun p => p.id == pid)

/-- `product.stock -= quantity` on the row with id `pid`. -/
def updateStock (products : List Product) (pid : Int) (qty : Int) : List Product :=
  products.map (fun p => if p.id == pid then { p with stock := p.stock - qty } else p)

/-- The per-line validation loop (orders.py lines 102–107): for each item in
request order, `ProductUnavailableError` if the product is not published,
then `OutOfStockError` if stock is below the requested quantity. A missing
product id cannot occur here because the missing-ids check already passed. -/
def validateItems (products : List Product) : List OrderItemInput → Option OrderErr
  | [] => none
  | item :: rest =>
    match findProduct products item.product_id with
    | none => none
    | some p =>
      if p.status ≠ ProductStatus.published ∨ p.is_published = false then
        some (.productUnavailableError
          ("Product " ++ toString p.id ++ " is not available for purchase"))
      else if p.stock < item.quantity then
        some (.outOfStockError ("Product " ++ toString p.id ++ " has insufficient stock"))
      else validateItems products rest

/-- Accumulator of the line-construction loop (orders.py lines 123–145):
the mutated product rows, the appended lines and the running totals. -/
structure BuildAcc where
  products : List Product
  lines : List OrderLine
  total_amount_cents : Int
  total_items : Int
  total_impact_co2_g : Int
deriving DecidableEq, Repr

/-- The order line built for one item (orders.py lines 125–140): the sale
price is the promo price if set, else the regular price; the reference price
is the regular price if a promo is set, else `None`, but is defaulted back to
the regular price when written (line 136). -/
def lineOf (p : Product) (item : OrderItemInput) : OrderLine :=
  let salePrice := p.promo_price_cents.getD p.price_cents
  let referencePrice : Option Int :=
    if p.promo_price_cents.isSome then some p.price_cents else none
  let subtotal := salePrice * item.quantity
  let co2 := (p.impact_co2_g.getD 0) * item.quantity
  { product_id := some p.id
    product_title := p.title
    quantity := item.quantity
    unit_price_cents := salePrice
    reference_price_cents := some (referencePrice.getD p.price_cents)
    subtotal_cents := subtotal
    impact_co2_g := if co2 = 0 then none else some co2 }

/-- One iteration of the line-construction loop: build the line, bump the
running totals, and decrement the product's stock. -/
def buildStep (acc : BuildAcc) (item : OrderItemInput) : BuildAcc :=
  match findProduct acc.products item.product_id with
  | none => acc
  | some p =>
    { products := updateStock acc.products p.id item.quantity
      lines := acc.lines ++ [lineOf p item]
      total_amount_cents := acc.total_amount_cents + (lineOf p item).subtotal_cents
      total_items := acc.total_items + item.quantity
      total_impact_co2_g := acc.total_impact_co2_g + (p.impact_co2_g.getD 0) * item.quantity }

/-- Python truthiness for an optional string argument (`if payment_provider:`). -/
def truthyStr : Option String → Option String
  | some s => if s = "" then none else some s
  | none => none

/-- `create_order` (orders.py lines 61–154). `freshKey` stands for the
`uuid4().hex` value generated when the client sent the literal placeholder
key. The Python blank-key test `idempotency_key.strip() == ""` (true exactly
when every character is whitespace) is modelled as an all-whitespace check.
An error result returns the input state unchanged, mirroring that the
Python function raises before performing any mutation and commits only on the
success path. -/
def createOrder (db : DB) (userId : Int) (orderIn : OrderCreate)
    (idempotencyKey : String) (freshKey : String) (paymentProvider : Option String) :
    DB × CreateResult :=
  if idempotencyKey = "" then
    (db, .err (.orderValidationError "Idempotency-Key header is required"))
  else if idempotencyKey.toList.all Char.isWhitespace then
    (db, .err (.orderValidationError "Idempotency-Key header is required"))
  else
    let key := if idempotencyKey = uuidPlaceholder then freshKey else idempotencyKey
    match findOrderByUserKey db.orders userId key with
    | some existing => (db, .ok existing false)
    | none =>
      let productIds := (orderIn.items.map (·.product_id)).dedup
      if productIds = [] then
        (db, .err (.orderValidationError "Order requires at least one product"))
      else
        let missing := productIds.filter (fun pid => (findProduct db.products pid).isNone)
        if missing ≠ [] then
          (db, .err (.productUnavailableError
            ("Products not found: " ++ toString (missing.insertionSort (· ≤ ·)))))
        else
          match validateItems db.products orderIn.items with
          | some e => (db, .err e)
          | none =>
            let acc := orderIn.items.foldl buildStep
              { products := db.products
                lines := []
                total_amount_cents := 0
                total_items := 0
                total_impact_co2_g := 0 }
            let order : Order :=
              { id := db.nextOrderId
                user_id := userId
                status := .pending
                currency := "EUR"
                total_amount_cents := acc.total_amount_cents
                total_items := acc.total_items
                total_impact_co2_g := acc.total_impact_co2_g
                payment_reference := none
                payment_provider := truthyStr paymentProvider
                idempotency_key := some key
                notes := orderIn.notes
                lines := acc.lines }
            ({ products := acc.products
               orders := db.orders ++ [order]
               nextOrderId := db.nextOrderId + 1 },
             .ok order true)

/-! ## Payment service (app/services/payments.py) -/

/-- `PaymentWebhookPayload` (schemas.py): the generic webhook body. The nested
`payload` dict is modelled as an association list of string entries. -/
structure PaymentWebhookPayload where
  provider : String
  order_id : Int
  event : String
  signature : String
  payload : List (String × String)
deriving DecidableEq, Repr

/-- `PaymentInitRequest` (schemas.py). -/
structure PaymentInitRequest where
  order_id : Int
  provider : String
  success_url : String
  cancel_url : String
deriving DecidableEq, Repr

/-- Result of a webhook handler: the `(order, status)` pair on success, or a
raised `PaymentProviderError` with its message. -/
inductive WebhookResult
  | ok (order : Order) (status : OrderStatus)
  | err (msg : String)
deriving DecidableEq, Repr

/-- `get_order_by_id` (orders.py lines 157–160). -/
def getOrderById (db : DB) (orderId : Int) : Option Order :=
  db.orders.find? (fun o => o.id == orderId)

/-- Replace the order row with a given id by an updated row (the effect on the
state of mutating an attached ORM object and committing). -/
def replaceOrder (db : DB) (o : Order) : DB :=
  { db with orders := db.orders.map (fun x => if x.id == o.id then o else x) }

/-- `update_order_status` (orders.py lines 163–175): set `status`, and set
`payment_reference` only when the `reference` argument is truthy (neither
`None` nor the empty string). Returns the updated state and the updated row. -/
def updateOrderStatus (db : DB) (order : Order) (status : OrderStatus)
    (reference : Option String) : DB × Order :=
  let o' : Order :=
    { order with
      status := status
      payment_reference :=
        match reference with
        | some r => if r = "" then order.payment_reference else some r
        | none => order.payment_reference }
  (replaceOrder db o', o')

/-- `payload.get(key, default)` on the modelled dict. -/
def payloadGet (payload : List (String × String)) (key : String)
    (dflt : Option String) : Option String :=
  match payload.lookup key with
  | some v => some v
  | none => dflt

/-- `handle_webhook` (payments.py lines 84–110): resolve the order, check the
provider recorded on the order against the payload, then map the event name to
a status transition applied unconditionally; unknown events are rejected. -/
def handleWebhook (db : DB) (data : PaymentWebhookPayload) : DB × WebhookResult :=
  match getOrderById db data.order_id with
  | none => (db, .err "Order not found")
  | some order =>
    if order.payment_provider == some data.provider then
      if data.event = "payment_succeeded" then
        let r := updateOrderStatus db order .paid
          (payloadGet data.payload "payment_intent" order.payment_reference)
        (r.1, .ok r.2 r.2.status)
      else if data.event = "payment_failed" then
        let r := updateOrderStatus db order .cancelled none
        (r.1, .ok r.2 r.2.status)
      else if data.event = "payment_refunded" then
        let r := updateOrderStatus db order .refunded none
        (r.1, .ok r.2 r.2.status)
      else (db, .err "Unknown event")
    else (db, .err "Provider mismatch")

/-- The `data.object` part of a Stripe event, with the fields the handler
reads; an absent field is `none`. -/
structure StripeEventObj where
  metadata : List (String × String)
  client_reference_id : Option String
  payment_intent : Option String
  id : Option String
deriving DecidableEq, Repr

/-- A parsed Stripe event envelope: its `type` string and `data.object`. -/
structure StripeEvent where
  type : Option String
  obj : StripeEventObj
deriving DecidableEq, Repr

/-- Decimal digits of a non-empty character list, most significant first. -/
def parseDigitList (cs : List Char) : Option Nat :=
  if cs = [] then none
  else
    cs.foldl
      (fun acc c =>
        match acc with
        | some n => if c.isDigit then some (n * 10 + (c.toNat - 48)) else none
        | none => none)
      (some 0)

/-- Python's `int(s)` on a plain decimal string (optional sign); any other
input raises, modelled as `none`. -/
def parsePyInt (s : String) : Option Int :=
  match s.toList with
  | [] => none
  | c :: rest =>
    if c = '-' then (parseDigitList rest).map (fun n => -(n : Int))
    else if c = '+' then (parseDigitList rest).map (fun n => (n : Int))
    else (parseDigitList (c :: rest)).map (fun n => (n : Int))

/-- Order-id resolution of `handle_stripe_event` (payments.py lines 122–133):
`metadata["order_id"]` parsed as an integer first, falling back to a truthy
`client_reference_id` parsed as an integer. -/
def resolveStripeOrderId (obj : StripeEventObj) : Option Int :=
  let fromMeta : Option Int :=
    match obj.metadata.lookup "order_id" with
    | some s => parsePyInt s
    | none => none
  match fromMeta with
  | some n => some n
  | none =>
    match obj.client_reference_id with
    | some s => if s = "" then none else parsePyInt s
    | none => none

/-- Python `a or b` on two optional strings (empty string counts as falsy). -/
def orElseFalsy (a b : Option String) : Option String :=
  match a with
  | some s => if s = "" then b else some s
  | none => b

/-- `handle_stripe_event` (payments.py lines 113–158): resolve the order id
from the event object, fetch the order, and dispatch on the event type. -/
def handleStripeEvent (db : DB) (event : StripeEvent) : DB × WebhookResult :=
  match resolveStripeOrderId event.obj with
  | none => (db, .err "Stripe webhook missing order reference")
  | some oid =>
    match getOrderById db oid with
    | none => (db, .err "Order not found")
    | some order =>
      if event.type = some "checkout.session.completed" then
        let reference :=
          match orElseFalsy event.obj.payment_intent event.obj.id with
          | some s => if s = "" then none else some s
          | none => none
        let r := updateOrderStatus db order .paid reference
        (r.1, .ok r.2 r.2.status)
      else if event.type = some "charge.refunded" ∨
          event.type = some "payment_intent.canceled" then
        let r := updateOrderStatus db order .refunded none
        (r.1, .ok r.2 r.2.status)
      else if event.type = some "checkout.session.expired" ∨
          event.type = some "payment_intent.payment_failed" then
        let r := updateOrderStatus db order .cancelled none
        (r.1, .ok r.2 r.2.status)
      else (db, .err "Unhandled Stripe event")

/-- The Stripe checkout session returned by the provider: its `id` and `url`
fields (each possibly absent). -/
structure StripeSessionData where
  id : Option String
  url : Option String
deriving DecidableEq, Repr

/-- The external environment `init_payment_session` interacts with: whether the
stripe library is importable, the configured secret key, and the outcome of
`stripe.checkout.Session.create` (`none` models the call raising). -/
structure StripeEnv where
  stripeAvailable : Bool
  stripeSecretKey : Option String
  sessionResult : Option StripeSessionData
deriving DecidableEq, Repr

/-- Result of `init_payment_session`: the `PaymentSession` fields on success,
or a raised `PaymentProviderError` message. -/
inductive PaymentSessionResult
  | ok (checkout_url : String) (payment_reference : Option String)
  | err (msg : String)
deriving DecidableEq, Repr

/-- `init_payment_session` (payments.py lines 22–81): reject orders that are
neither PENDING nor DRAFT; for the stripe provider create a checkout session
and persist provider and session id on the order; for any other provider
synthesize a sandbox reference and URL. The order's `status` is never
assigned. -/
def initPaymentSession (db : DB) (order : Order) (req : PaymentInitRequest)
    (env : StripeEnv) : DB × PaymentSessionResult :=
  if order.status ≠ OrderStatus.pending ∧ order.status ≠ OrderStatus.draft then
    (db, .err "Order already processed")
  else
    if req.provider.toLower = "stripe" then
      if env.stripeAvailable = false ∨ env.stripeSecretKey = none ∨
          env.stripeSecretKey = some "" then
        (db, .err "Stripe not configured")
      else
        match env.sessionResult with
        | none => (db, .err "Stripe error")
        | some session =>
          let o' := { order with payment_provider := some req.provider.toLower
                                 payment_reference := session.id }
          match session.url with
          | none => (replaceOrder db o', .err "Stripe session missing URL")
          | some url =>
            if url = "" then (replaceOrder db o', .err "Stripe session missing URL")
            else (replaceOrder db o', .ok url o'.payment_reference)
    else
      let ref := req.provider.toLower ++ "_session_" ++ toString order.id
      let o' := { order with payment_provider := some req.provider.toLower
                             payment_reference := some ref }
      (replaceOrder db o',
       .ok ("https://checkout." ++ req.provider.toLower ++ ".sandbox/session/" ++ ref)
         (some ref))

/-! ## Concrete fixtures

Small concrete states used by witnesses and counterexamples. `exA`/`exB`
realise the worked example of the specification (product A: price 500,
promo 400; product B: price 1000, no promo). -/

def exA : Product :=
  { id := 1, producer_id := 50, title := "A", price_cents := 500,
    promo_price_cents := some 400, stock := 10, status := .published,
    is_published := true, impact_co2_g := none }

def exB : Product :=
  { id := 2, producer_id := 50, title := "B", price_cents := 1000,
    promo_price_cents := none, stock := 5, status := .published,
    is_published := true, impact_co2_g := none }

def exDB : DB := { products := [exA, exB], orders := [], nextOrderId := 1 }

def exIn : OrderCreate :=
  { items := [{ product_id := 1, quantity := 2 }, { product_id := 2, quantity := 1 }],
    notes := none }

/-- The order produced by `createOrder exDB 7 exIn "k" "f" none`. -/
def exOrder : Order :=
  { id := 1, user_id := 7, status := .pending, currency := "EUR",
    total_amount_cents := 1800, total_items := 3, total_impact_co2_g := 0,
    payment_reference := none, payment_provider := none,
    idempotency_key := some "k", notes := none,
    lines :=
      [{ product_id := some 1, product_title := "A", quantity := 2,
         unit_price_cents := 400, reference_price_cents := some 500,
         subtotal_cents := 800, impact_co2_g := none },
       { product_id := some 2, product_title := "B", quantity := 1,
         unit_price_cents := 1000, reference_price_cents := some 1000,
         subtotal_cents := 1000, impact_co2_g := none }] }

/-- A product with stock 1, listed twice in `dupIn`. -/
def dupP : Product :=
  { id := 3, producer_id := 50, title := "C", price_cents := 200,
    promo_price_cents := none, stock := 1, status := .published,
    is_published := true, impact_co2_g := none }

def dupDB : DB := { products := [dupP], orders := [], nextOrderId := 1 }

def dupIn : OrderCreate :=
  { items := [{ product_id := 3, quantity := 1 }, { product_id := 3, quantity := 1 }],
    notes := none }

/-- An order already stored for user 7 under idempotency key "k". -/
def w2order : Order :=
  { id := 1, user_id := 7, status := .pending, currency := "EUR",
    total_amount_cents := 1800, total_items := 3, total_impact_co2_g := 0,
    payment_reference := none, payment_provider := none,
    idempotency_key := some "k", notes := none, lines := [] }

def w2db : DB := { products := [], orders := [w2order], nextOrderId := 2 }

/-- A pending stripe order used by the webhook fixtures. -/
def c7order : Order :=
  { id := 1, user_id := 7, status := .pending, currency := "EUR",
    total_amount_cents := 1800, total_items := 3, total_impact_co2_g := 0,
    payment_reference := some "sess_1", payment_provider := some "stripe",
    idempotency_key := some "k", notes := none, lines := [] }

def c7db : DB := { products := [], orders := [c7order], nextOrderId := 2 }

/-- A `payment_intent.canceled` Stripe event referencing order 1. -/
def c7event : StripeEvent :=
  { type := some "payment_intent.canceled",
    obj := { metadata := [("order_id", "1")], client_reference_id := none,
             payment_intent := none, id := none } }

/-- A `payment_succeeded` generic webhook payload for order 1 (stripe). -/
def w6data : PaymentWebhookPayload :=
  { provider := "stripe", order_id := 1, event := "payment_succeeded",
    signature := "sig_12345", payload := [("payment_intent", "pi_123")] }

/-- A generic webhook payload whose provider ("paygreen") differs from the
provider recorded on order 1 ("stripe"). -/
def w9data : PaymentWebhookPayload :=
  { provider := "paygreen", order_id := 1, event := "payment_succeeded",
    signature := "sig_12345", payload := [] }

/-- The order produced by `createOrder dupDB 9 dupIn "dup" "f" none`: both
duplicate lines are accepted. -/
def dupOrder : Order :=
  { id := 1, user_id := 9, status := .pending, currency := "EUR",
    total_amount_cents := 400, total_items := 2, total_impact_co2_g := 0,
    payment_reference := none, payment_provider := none,
    idempotency_key := some "dup", notes := none,
    lines :=
      [{ product_id := some 3, product_title := "C", quantity := 1,
         unit_price_cents := 200, reference_price_cents := some 200,
         subtotal_cents := 200, impact_co2_g := none },
       { product_id := some 3, product_title := "C", quantity := 1,
         unit_price_cents := 200, reference_price_cents := some 200,
         subtotal_cents := 200, impact_co2_g := none }] }

/-- Order 1 after the `payment_intent.canceled` Stripe event. -/
def c7orderAfter : Order := { c7order with status := .refunded }

/-- A `checkout.session.completed` Stripe event referencing order 1. -/
def w7event : StripeEvent :=
  { type := some "checkout.session.completed",
    obj := { metadata := [("order_id", "1")], client_reference_id := none,
             payment_intent := some "pi_123", id := some "cs_1" } }

/-- A payment-init request for order 1 over the sandbox provider. -/
def w8req : PaymentInitRequest :=
  { order_id := 1, provider := "paygreen",
    success_url := "https://shop.example/ok", cancel_url := "https://shop.example/ko" }

/-- A stripe environment where everything is configured and the provider
returns a complete session. -/
def w8env : StripeEnv :=
  { stripeAvailable := true, stripeSecretKey := some "sk_test_1",
    sessionResult := some { id := some "cs_1", url := some "https://stripe/session/cs_1" } }

/-- The accumulator the line-construction loop starts from. -/
def initialAcc (db : DB) : BuildAcc :=
  { products := db.products, lines := [], total_amount_cents := 0,
    total_items := 0, total_impact_co2_g := 0 }

/-- The non-stock columns of an optional product row: id, title, regular
price, promo price, CO2 impact. Stock updates leave this view unchanged. -/
def priceView : Option Product → Option (Int × String × Int × Option Int × Option Int)
  | none => none
  | some p => some (p.id, p.title, p.price_cents, p.promo_price_cents, p.impact_co2_g)

/-- Total quantity requested for one product id across all lines of a
request. -/
def qtyFor (items : List OrderItemInput) (pid : Int) : Int :=
  ((items.filter (fun it => it.product_id == pid)).map (·.quantity)).sum

/-- An item passes the per-line validation: if its product resolves, the
product is published (status and flag) and has stock at least the requested
quantity. -/
def lineOk (products : List Product) (it : OrderItemInput) : Prop :=
  ∀ p, findProduct products it.product_id = some p →
    p.status = ProductStatus.published ∧ p.is_published = true ∧
    it.quantity ≤ p.stock

/-- Two orders agree on every column except `payment_provider` and
`payment_reference`. -/
def sameExceptPayment (x y : Order) : Prop :=
  y.id = x.id ∧ y.user_id = x.user_id ∧ y.status = x.status ∧
  y.currency = x.currency ∧ y.total_amount_cents = x.total_amount_cents ∧
  y.total_items = x.total_items ∧ y.total_impact_co2_g = x.total_impact_co2_g ∧
  y.idempotency_key = x.idempotency_key ∧ y.notes = x.notes ∧ y.lines = x.lines

/-! ## Theorems -/

/-- Decrementing one row's stock rewrites a lookup into a mapped lookup. -/
theorem findProduct_updateStock (ps : List Product) (pid qty pid' : Int) :
    findProduct (updateStock ps pid qty) pid' =
      (findProduct ps pid').map
        (fun p => if p.id == pid then { p with stock := p.stock - qty } else p) := by
  induction ps with
  | nil => rfl
  | cons h t ih =>
    unfold updateStock at ih ⊢
    unfold findProduct at ih ⊢
    rw [List.map_cons]
    by_cases hc : h.id = pid'
    · rw [List.find?_cons_of_pos _ (by split <;> (simp only [beq_iff_eq]; exact hc)),
        List.find?_cons_of_pos _ (by simp only [beq_iff_eq]; exact hc)]
      rfl
    · rw [List.find?_cons_of_neg _ (by split <;> (simp only [beq_iff_eq]; exact hc)),
        List.find?_cons_of_neg _ (by simp only [beq_iff_eq]; exact hc)]
      exact ih

/-- Stock updates do not change the pricing view of any lookup. -/
theorem priceView_updateStock (ps : List Product) (pid qty pid' : Int) :
    priceView (findProduct (updateStock ps pid qty) pid') =
      priceView (findProduct ps pid') := by
  rw [findProduct_updateStock]
  cases findProduct ps pid' with
  | none => rfl
  | some p =>
    simp only [Option.map]
    by_cases hc : (p.id == pid) = true
    · rw [if_pos hc]; rfl
    · rw [if_neg hc]

/-- Products whose pricing views agree build identical order lines. -/
theorem lineOf_congr (p q : Product) (item : OrderItemInput)
    (h : priceView (some q) = priceView (some p)) :
    lineOf q item = lineOf p item := by
  simp only [priceView, Option.some.injEq, Prod.mk.injEq] at h
  obtain ⟨h1, h2, h3, h4, h5⟩ := h
  simp [lineOf, h1, h2, h3, h4, h5]

/-- The line-construction fold appends one line per item, built from the
pricing view of the pre-existing product rows, and accumulates the running
totals as the sums of the new lines' subtotals and quantities. -/
theorem buildStep_foldl_spec (base : List Product) (items : List OrderItemInput) :
    ∀ (acc : BuildAcc),
    (∀ pid, priceView (findProduct acc.products pid) = priceView (findProduct base pid)) →
    (∀ it ∈ items, (findProduct base it.product_id).isSome = true) →
    ∃ newLines,
      (items.foldl buildStep acc).lines = acc.lines ++ newLines ∧
      List.Forall₂ (fun it line => ∃ p, findProduct base it.product_id = some p ∧
        line = lineOf p it) items newLines ∧
      (items.foldl buildStep acc).total_amount_cents
        = acc.total_amount_cents + (newLines.map (·.subtotal_cents)).sum ∧
      (items.foldl buildStep acc).total_items
        = acc.total_items + (newLines.map (·.quantity)).sum := by
  induction items with
  | nil =>
    intro acc hpv hfound
    exact ⟨[], by simp, List.Forall₂.nil, by simp, by simp⟩
  | cons it rest ih =>
    intro acc hpv hfound
    obtain ⟨p, hp⟩ : ∃ p, findProduct base it.product_id = some p := by
      have hs := hfound it (List.mem_cons_self _ _)
      cases hfp : findProduct base it.product_id with
      | none => rw [hfp] at hs; simp at hs
      | some p => exact ⟨p, rfl⟩
    have hpv' := hpv it.product_id
    rw [hp] at hpv'
    cases hq : findProduct acc.products it.product_id with
    | none => rw [hq] at hpv'; simp [priceView] at hpv'
    | some q =>
      rw [hq] at hpv'
      have hline : lineOf q it = lineOf p it := lineOf_congr p q it hpv'
      have hstep : buildStep acc it =
          { products := updateStock acc.products q.id it.quantity
            lines := acc.lines ++ [lineOf q it]
            total_amount_cents := acc.total_amount_cents + (lineOf q it).subtotal_cents
            total_items := acc.total_items + it.quantity
            total_impact_co2_g := acc.total_impact_co2_g
              + (q.impact_co2_g.getD 0) * it.quantity } := by
        unfold buildStep
        rw [hq]
      rw [List.foldl_cons]
      have hpv2 : ∀ pid, priceView (findProduct (buildStep acc it).products pid)
          = priceView (findProduct base pid) := by
        intro pid
        rw [hstep]
        exact (priceView_updateStock acc.products q.id it.quantity pid).trans (hpv pid)
      obtain ⟨nl, hl, hf, ha, hi⟩ :=
        ih (buildStep acc it) hpv2 (fun x hx => hfound x (List.mem_cons_of_mem _ hx))
      have hlines2 : (buildStep acc it).lines = acc.lines ++ [lineOf q it] := by
        rw [hstep]
      have hta : (buildStep acc it).total_amount_cents
          = acc.total_amount_cents + (lineOf q it).subtotal_cents := by
        rw [hstep]
      have hti : (buildStep acc it).total_items = acc.total_items + it.quantity := by
        rw [hstep]
      rw [hlines2] at hl
      rw [hta] at ha
      rw [hti] at hi
      refine ⟨lineOf p it :: nl, ?_, List.Forall₂.cons ⟨p, hp, rfl⟩ hf, ?_, ?_⟩
      · rw [hl]
        simp [hline]
      · rw [ha]
        simp only [List.map_cons, List.sum_cons, hline]
        omega
      · rw [hi]
        have hq2 : (lineOf p it).quantity = it.quantity := rfl
        simp only [List.map_cons, List.sum_cons, hq2]
        omega

/-- After the whole line-construction fold, each product's stock has been
decremented by the total quantity requested for it across all lines. -/
theorem stock_foldl (items : List OrderItemInput) :
    ∀ (acc : BuildAcc) (pid : Int),
    findProduct (items.foldl buildStep acc).products pid =
      (findProduct acc.products pid).map
        (fun p => { p with stock := p.stock - qtyFor items pid }) := by
  induction items with
  | nil =>
    intro acc pid
    cases hfp : findProduct acc.products pid with
    | none => simp [hfp]
    | some p =>
      rw [List.foldl_nil, hfp, Option.map_some']
      have h0 : qtyFor ([] : List OrderItemInput) pid = 0 := rfl
      rw [h0]
      simp
  | cons it rest ih =>
    intro acc pid
    rw [List.foldl_cons, ih (buildStep acc it) pid]
    cases hq : findProduct acc.products it.product_id with
    | none =>
      have hb : (buildStep acc it).products = acc.products := by
        unfold buildStep
        rw [hq]
      rw [hb]
      by_cases hip : it.product_id = pid
      · have hnone : findProduct acc.products pid = none := by rw [← hip]; exact hq
        rw [hnone]
        rfl
      · have hfilter : qtyFor (it :: rest) pid = qtyFor rest pid := by
          simp [qtyFor, List.filter_cons, beq_iff_eq, hip]
        rw [hfilter]
    | some q =>
      have hqid : q.id = it.product_id := by
        have hb := List.find?_some hq
        simpa only [beq_iff_eq] using hb
      have hb : (buildStep acc it).products = updateStock acc.products q.id it.quantity := by
        unfold buildStep
        rw [hq]
      rw [hb, findProduct_updateStock]
      cases hfp : findProduct acc.products pid with
      | none => rfl
      | some p =>
        have hpid : p.id = pid := by
          have hbp := List.find?_some hfp
          simpa only [beq_iff_eq] using hbp
        simp only [Option.map_some']
        by_cases hip : it.product_id = pid
        · have hcond : (p.id == q.id) = true := by
            simp only [beq_iff_eq, hpid, hqid]
            exact hip.symm
          rw [if_pos hcond]
          have hqcons : qtyFor (it :: rest) pid = it.quantity + qtyFor rest pid := by
            simp [qtyFor, List.filter_cons, beq_iff_eq, hip]
          rw [hqcons]
          cases p
          simp only [Option.some.injEq, Product.mk.injEq, true_and, and_true,
            eq_self_iff_true]
          omega
        · have hcond : ¬((p.id == q.id) = true) := by
            simp only [beq_iff_eq, hpid, hqid]
            exact fun hc => hip hc.symm
          rw [if_neg hcond]
          have hqcons : qtyFor (it :: rest) pid = qtyFor rest pid := by
            simp [qtyFor, List.filter_cons, beq_iff_eq, hip]
          rw [hqcons]

/-- Unfolding of the validation loop on a non-empty item list. -/
theorem validateItems_cons (products : List Product) (a : OrderItemInput)
    (l : List OrderItemInput) :
    validateItems products (a :: l) =
      match findProduct products a.product_id with
      | none => none
      | some p =>
        if p.status ≠ ProductStatus.published ∨ p.is_published = false then
          some (.productUnavailableError
            ("Product " ++ toString p.id ++ " is not available for purchase"))
        else if p.stock < a.quantity then
          some (.outOfStockError ("Product " ++ toString p.id ++ " has insufficient stock"))
        else validateItems products l := rfl

/-- When every requested product resolves and the validation loop raises
nothing, every item satisfies the published and stock checks. -/
theorem validateItems_none_spec (products : List Product) (items : List OrderItemInput)
    (hfound : ∀ it ∈ items, (findProduct products it.product_id).isSome = true)
    (h : validateItems products items = none) :
    ∀ it ∈ items, lineOk products it := by
  induction items with
  | nil => intro it hit; cases hit
  | cons a rest ih =>
    intro it hit p hp
    rw [validateItems_cons] at h
    cases hfp : findProduct products a.product_id with
    | none =>
      have hcontra := hfound a (List.mem_cons_self _ _)
      rw [hfp] at hcontra
      simp at hcontra
    | some pa =>
      simp only [hfp] at h
      by_cases hbad : pa.status ≠ ProductStatus.published ∨ pa.is_published = false
      · rw [if_pos hbad] at h; cases h
      · rw [if_neg hbad] at h
        by_cases hstock : pa.stock < a.quantity
        · rw [if_pos hstock] at h; cases h
        · rw [if_neg hstock] at h
          rcases List.mem_cons.mp hit with rfl | hmem
          · have hpa : pa = p := by rw [hfp] at hp; exact Option.some.inj hp
            subst hpa
            push_neg at hbad
            exact ⟨hbad.1, Bool.ne_false_iff.mp hbad.2, Int.not_lt.mp hstock⟩
          · exact ih (fun x hx => hfound x (List.mem_cons_of_mem _ hx)) h it hmem p hp

/-- Items that resolve and pass validation can be dropped from the front of
the loop. -/
theorem validateItems_append (products : List Product)
    (pre rest : List OrderItemInput)
    (hfound : ∀ it ∈ pre, (findProduct products it.product_id).isSome = true)
    (h : ∀ it ∈ pre, lineOk products it) :
    validateItems products (pre ++ rest) = validateItems products rest := by
  induction pre with
  | nil => rfl
  | cons a pre' ih =>
    rw [List.cons_append, validateItems_cons]
    cases hfp : findProduct products a.product_id with
    | none =>
      have hcontra := hfound a (List.mem_cons_self _ _)
      rw [hfp] at hcontra
      simp at hcontra
    | some pa =>
      simp only [hfp]
      obtain ⟨hs, hf, hst⟩ := h a (List.mem_cons_self _ _) pa hfp
      rw [if_neg (by simp [hs, hf]), if_neg (Int.not_lt.mpr hst)]
      exact ih (fun it hit => hfound it (List.mem_cons_of_mem _ hit))
        (fun it hit => h it (List.mem_cons_of_mem _ hit))

/-- With pairwise-distinct product ids, the total requested quantity for an
item's product is exactly that item's quantity. -/
theorem qtyFor_nodup (items : List OrderItemInput)
    (hnodup : (items.map (·.product_id)).Nodup) (it : OrderItemInput)
    (hit : it ∈ items) : qtyFor items it.product_id = it.quantity := by
  induction items with
  | nil => cases hit
  | cons a rest ih =>
    rw [List.map_cons, List.nodup_cons] at hnodup
    rcases List.mem_cons.mp hit with rfl | hmem
    · have hrest : (rest.filter (fun x => x.product_id == it.product_id)) = [] := by
        rw [List.filter_eq_nil_iff]
        intro x hx
        simp only [beq_iff_eq]
        intro hcontra
        exact hnodup.1 (hcontra ▸ List.mem_map_of_mem _ hx)
      simp [qtyFor, List.filter_cons, hrest]
    · have hne : ¬((a.product_id == it.product_id) = true) := by
        simp only [beq_iff_eq]
        intro hcontra
        exact hnodup.1 (hcontra ▸ List.mem_map_of_mem _ hmem)
      have := ih hnodup.2 hmem
      simp only [qtyFor, List.filter_cons, if_neg hne] at this ⊢
      exact this

/-- Inversion of a successful creating `createOrder` call: the missing-ids
check and the validation loop both passed, and the returned order and state
are exactly those assembled by the construction fold. -/
theorem createOrder_ok_true_inv
    (db : DB) (userId : Int) (orderIn : OrderCreate) (key freshKey : String)
    (pp : Option String) (db' : DB) (o : Order)
    (h : createOrder db userId orderIn key freshKey pp = (db', .ok o true)) :
    ((orderIn.items.map (·.product_id)).dedup.filter
        (fun pid => (findProduct db.products pid).isNone) = []) ∧
    validateItems db.products orderIn.items = none ∧
    o.lines = (orderIn.items.foldl buildStep (initialAcc db)).lines ∧
    o.total_amount_cents
      = (orderIn.items.foldl buildStep (initialAcc db)).total_amount_cents ∧
    o.total_items = (orderIn.items.foldl buildStep (initialAcc db)).total_items ∧
    db'.products = (orderIn.items.foldl buildStep (initialAcc db)).products ∧
    db'.orders = db.orders ++ [o] ∧
    o.status = OrderStatus.pending ∧
    o.user_id = userId := by
  simp only [createOrder] at h
  split at h
  · simp at h
  · split at h
    · simp at h
    · split at h
      · simp at h
      · split at h
        · simp at h
        · split at h
          case _ hmiss => simp at h
          case _ hmiss =>
            split at h
            · simp at h
            · next hval =>
              rw [Prod.mk.injEq] at h
              obtain ⟨hdb, hres⟩ := h
              rw [CreateResult.ok.injEq] at hres
              obtain ⟨ho, _⟩ := hres
              subst hdb
              subst ho
              refine ⟨not_not.mp (by exact fun hc => hmiss hc), hval,
                rfl, rfl, rfl, rfl, rfl, rfl, rfl⟩

/-- `find?` by id over a list where every row with `o'.id` has been replaced
by `o'`: if the search used to find `order` and `o'` carries the same id, it
now finds `o'`. -/
theorem find?_id_replace (l : List Order) (i : Int) (order o' : Order)
    (h : l.find? (fun x => x.id == i) = some order) (hid : o'.id = order.id) :
    (l.map (fun x => if x.id == o'.id then o' else x)).find? (fun x => x.id == i)
      = some o' := by
  have hoi : order.id = i := by
    have hp := List.find?_some h
    simpa only [beq_iff_eq] using hp
  induction l with
  | nil => simp at h
  | cons y t ih =>
    rw [List.map_cons]
    by_cases hy : y.id = i
    · rw [List.find?_cons_of_pos _ (by simp [hy])] at h
      have hyo : y = order := Option.some.inj h
      have hcond : (y.id == o'.id) = true := by simp [hid, hyo]
      rw [if_pos hcond]
      exact List.find?_cons_of_pos _ (by simp [beq_iff_eq, hid, hoi])
    · rw [List.find?_cons_of_neg _ (by simp [hy])] at h
      have hcond : ¬((y.id == o'.id) = true) := by
        simp only [beq_iff_eq, hid, hoi]
        exact hy
      rw [if_neg hcond]
      rw [List.find?_cons_of_neg _ (by simp [hy])]
      exact ih h

/-- After committing an update of the found order, looking the order up by id
returns the updated row. -/
theorem getOrderById_replaceOrder (db : DB) (i : Int) (order o' : Order)
    (h : getOrderById db i = some order) (hid : o'.id = order.id) :
    getOrderById (replaceOrder db o') i = some o' :=
  find?_id_replace db.orders i order o' h hid

/-- Unfolding of `handleWebhook` on a resolved, provider-matching
`payment_succeeded` event. -/
theorem handleWebhook_succeeded_eq (db : DB) (data : PaymentWebhookPayload)
    (order : Order)
    (horder : getOrderById db data.order_id = some order)
    (hprov : order.payment_provider = some data.provider)
    (hev : data.event = "payment_succeeded") :
    handleWebhook db data =
      ((updateOrderStatus db order .paid
          (payloadGet data.payload "payment_intent" order.payment_reference)).1,
       .ok (updateOrderStatus db order .paid
          (payloadGet data.payload "payment_intent" order.payment_reference)).2
         OrderStatus.paid) := by
  unfold handleWebhook
  simp only [horder, hprov, hev, beq_self_eq_true]
  rfl

/-- C6: on a resolved, provider-matching webhook, `handleWebhook` maps
`payment_succeeded` to PAID (recording the settlement reference from the
payload's `payment_intent` when one is given), `payment_failed` to CANCELLED,
`payment_refunded` to REFUNDED, and rejects any other event with
`PaymentProviderError`; no hypothesis is made on the order's current status
(the transition is applied unconditionally), and replaying an identical
`payment_succeeded` event again yields PAID. -/
theorem handle_webhook_transitions
    (db : DB) (data : PaymentWebhookPayload) (order : Order)
    (horder : getOrderById db data.order_id = some order)
    (hprov : order.payment_provider = some data.provider) :
    (data.event = "payment_succeeded" →
      ∃ o', handleWebhook db data = (replaceOrder db o', .ok o' .paid) ∧
        o'.status = .paid ∧ o'.id = order.id ∧
        (∀ s, data.payload.lookup "payment_intent" = some s → s ≠ "" →
          o'.payment_reference = some s) ∧
        ∃ o'', handleWebhook (replaceOrder db o') data =
            (replaceOrder (replaceOrder db o') o'', .ok o'' .paid) ∧
          o''.status = .paid) ∧
    (data.event = "payment_failed" →
      ∃ o', handleWebhook db data = (replaceOrder db o', .ok o' .cancelled) ∧
        o'.status = .cancelled) ∧
    (data.event = "payment_refunded" →
      ∃ o', handleWebhook db data = (replaceOrder db o', .ok o' .refunded) ∧
        o'.status = .refunded) ∧
    (data.event ≠ "payment_succeeded" → data.event ≠ "payment_failed" →
      data.event ≠ "payment_refunded" →
      handleWebhook db data = (db, .err "Unknown event")) := by
  refine ⟨?_, ?_, ?_, ?_⟩
  · intro hev
    refine ⟨(updateOrderStatus db order .paid
        (payloadGet data.payload "payment_intent" order.payment_reference)).2,
      handleWebhook_succeeded_eq db data order horder hprov hev, rfl, rfl, ?_, ?_⟩
    · intro s hs hs'
      simp [updateOrderStatus, payloadGet, hs, hs']
    · set o₁ := (updateOrderStatus db order .paid
        (payloadGet data.payload "payment_intent" order.payment_reference)).2 with ho₁
      have horder₂ : getOrderById (replaceOrder db o₁) data.order_id = some o₁ :=
        getOrderById_replaceOrder db data.order_id order o₁ horder rfl
      have hprov₂ : o₁.payment_provider = some data.provider := hprov
      exact ⟨(updateOrderStatus (replaceOrder db o₁) o₁ .paid
          (payloadGet data.payload "payment_intent" o₁.payment_reference)).2,
        handleWebhook_succeeded_eq (replaceOrder db o₁) data o₁ horder₂ hprov₂ hev, rfl⟩
  · intro hev
    refine ⟨(updateOrderStatus db order .cancelled none).2, ?_, rfl⟩
    unfold handleWebhook
    simp only [horder, hprov, hev, beq_self_eq_true]
    rfl
  · intro hev
    refine ⟨(updateOrderStatus db order .refunded none).2, ?_, rfl⟩
    unfold handleWebhook
    simp only [horder, hprov, hev, beq_self_eq_true]
    rfl
  · intro h1 h2 h3
    unfold handleWebhook
    simp only [horder, hprov, beq_self_eq_true, if_neg h1, if_neg h2, if_neg h3]
    rfl

theorem handle_webhook_transitions_witness :
    ((("payment_succeeded" : String) = "payment_succeeded" →
      ∃ o', handleWebhook c7db w6data = (replaceOrder c7db o', .ok o' .paid) ∧
        o'.status = .paid ∧ o'.id = c7order.id ∧
        (∀ s, w6data.payload.lookup "payment_intent" = some s → s ≠ "" →
          o'.payment_reference = some s) ∧
        ∃ o'', handleWebhook (replaceOrder c7db o') w6data =
            (replaceOrder (replaceOrder c7db o') o'', .ok o'' .paid) ∧
          o''.status = .paid) ∧
    (("payment_succeeded" : String) = "payment_failed" →
      ∃ o', handleWebhook c7db w6data = (replaceOrder c7db o', .ok o' .cancelled) ∧
        o'.status = .cancelled) ∧
    (("payment_succeeded" : String) = "payment_refunded" →
      ∃ o', handleWebhook c7db w6data = (replaceOrder c7db o', .ok o' .refunded) ∧
        o'.status = .refunded) ∧
    (("payment_succeeded" : String) ≠ "payment_succeeded" →
      ("payment_succeeded" : String) ≠ "payment_failed" →
      ("payment_succeeded" : String) ≠ "payment_refunded" →
      handleWebhook c7db w6data = (c7db, .err "Unknown event"))) :=
  handle_webhook_transitions c7db w6data c7order rfl rfl

/-- C7 counterexample: the claim assigns `payment_intent.canceled` to the
CANCELLED group, but `handleStripeEvent` groups it with `charge.refunded` and
transitions the order to REFUNDED: on a pending order, the event produces
status `refunded`, which is not `cancelled`. -/
theorem handle_stripe_event_canceled_counterexample :
    c7event.type = some "payment_intent.canceled" ∧
    c7order.status = OrderStatus.pending ∧
    handleStripeEvent c7db c7event =
      (replaceOrder c7db c7orderAfter, .ok c7orderAfter .refunded) ∧
    c7orderAfter.status = OrderStatus.refunded ∧
    OrderStatus.refunded ≠ OrderStatus.cancelled :=
  ⟨rfl, rfl, rfl, rfl, by decide⟩

/-- C7 (amended): in `handleStripeEvent`, `checkout.session.completed`
transitions the order to PAID; `charge.refunded` and
`payment_intent.canceled` transition it to REFUNDED;
`checkout.session.expired` and `payment_intent.payment_failed` transition it
to CANCELLED; any other event type raises `PaymentProviderError`. -/
theorem handle_stripe_event_transitions
    (db : DB) (event : StripeEvent) (oid : Int) (order : Order)
    (hres : resolveStripeOrderId event.obj = some oid)
    (horder : getOrderById db oid = some order) :
    (event.type = some "checkout.session.completed" →
      ∃ o', handleStripeEvent db event = (replaceOrder db o', .ok o' .paid) ∧
        o'.status = .paid) ∧
    ((event.type = some "charge.refunded" ∨
        event.type = some "payment_intent.canceled") →
      ∃ o', handleStripeEvent db event = (replaceOrder db o', .ok o' .refunded) ∧
        o'.status = .refunded) ∧
    ((event.type = some "checkout.session.expired" ∨
        event.type = some "payment_intent.payment_failed") →
      ∃ o', handleStripeEvent db event = (replaceOrder db o', .ok o' .cancelled) ∧
        o'.status = .cancelled) ∧
    (event.type ≠ some "checkout.session.completed" →
      event.type ≠ some "charge.refunded" →
      event.type ≠ some "payment_intent.canceled" →
      event.type ≠ some "checkout.session.expired" →
      event.type ≠ some "payment_intent.payment_failed" →
      handleStripeEvent db event = (db, .err "Unhandled Stripe event")) := by
  refine ⟨?_, ?_, ?_, ?_⟩
  · intro hev
    unfold handleStripeEvent
    simp only [hres, horder, hev]
    exact ⟨_, rfl, rfl⟩
  · intro hev
    rcases hev with h | h <;>
      (unfold handleStripeEvent; simp only [hres, horder, h]; exact ⟨_, rfl, rfl⟩)
  · intro hev
    rcases hev with h | h <;>
      (unfold handleStripeEvent; simp only [hres, horder, h]; exact ⟨_, rfl, rfl⟩)
  · intro h1 h2 h3 h4 h5
    unfold handleStripeEvent
    simp only [hres, horder, if_neg h1, if_neg (not_or.mpr ⟨h2, h3⟩),
      if_neg (not_or.mpr ⟨h4, h5⟩)]

theorem handle_stripe_event_transitions_witness :
    ((w7event.type = some "checkout.session.completed" →
      ∃ o', handleStripeEvent c7db w7event = (replaceOrder c7db o', .ok o' .paid) ∧
        o'.status = .paid) ∧
    ((w7event.type = some "charge.refunded" ∨
        w7event.type = some "payment_intent.canceled") →
      ∃ o', handleStripeEvent c7db w7event = (replaceOrder c7db o', .ok o' .refunded) ∧
        o'.status = .refunded) ∧
    ((w7event.type = some "checkout.session.expired" ∨
        w7event.type = some "payment_intent.payment_failed") →
      ∃ o', handleStripeEvent c7db w7event = (replaceOrder c7db o', .ok o' .cancelled) ∧
        o'.status = .cancelled) ∧
    (w7event.type ≠ some "checkout.session.completed" →
      w7event.type ≠ some "charge.refunded" →
      w7event.type ≠ some "payment_intent.canceled" →
      w7event.type ≠ some "checkout.session.expired" →
      w7event.type ≠ some "payment_intent.payment_failed" →
      handleStripeEvent c7db w7event = (c7db, .err "Unhandled Stripe event"))) :=
  handle_stripe_event_transitions c7db w7event 1 c7order rfl rfl

/-- C4 counterexample: a request listing the same product on two lines is
checked line-by-line against the original stock, so with stock 1 and two
lines of quantity 1 the order is accepted and the product's stock ends at
−1, violating the claimed non-negativity for every request shape. -/
theorem create_order_duplicate_lines_negative_stock :
    (createOrder dupDB 9 dupIn "dup" "f" none).2 = .ok dupOrder true ∧
    (createOrder dupDB 9 dupIn "dup" "f" none).1.products.map (·.stock) = [-1] ∧
    ¬((0 : Int) ≤ -1) :=
  ⟨rfl, rfl, by decide⟩

/-- C5 counterexample: product B carries no promo price, yet the line created
for it records a reference price (the regular price 1000) instead of leaving
the column unset — `create_order` defaults the reference price to
`product.price_cents` even when no promo is active. -/
theorem create_order_reference_price_without_promo :
    (createOrder exDB 7 exIn "k" "f" none).2 = .ok exOrder true ∧
    exB.promo_price_cents = none ∧
    (exOrder.lines.drop 1).map (·.product_id) = [some exB.id] ∧
    (exOrder.lines.drop 1).map (·.reference_price_cents) = [some 1000] ∧
    some (1000 : Int) ≠ (none : Option Int) :=
  ⟨rfl, rfl, rfl, rfl, by decide⟩

/-- `sameExceptPayment` is reflexive. -/
theorem sameExceptPayment_refl (x : Order) : sameExceptPayment x x :=
  ⟨rfl, rfl, rfl, rfl, rfl, rfl, rfl, rfl, rfl, rfl⟩

/-- Replacing the rows sharing the id of an updated copy of `order` changes
each row only in its payment columns, provided `order` is the unique row with
its id. -/
theorem forall₂_sameExceptPayment_replace (l : List Order) (order o' : Order)
    (huniq : ∀ x ∈ l, x.id = order.id → x = order)
    (hid : o'.id = order.id) (hsep : sameExceptPayment order o') :
    List.Forall₂ sameExceptPayment l
      (l.map (fun x => if x.id == o'.id then o' else x)) := by
  induction l with
  | nil => exact List.Forall₂.nil
  | cons y t ih =>
    rw [List.map_cons]
    refine List.Forall₂.cons ?_
      (ih (fun x hx hxid => huniq x (List.mem_cons_of_mem _ hx) hxid))
    by_cases hy : y.id = o'.id
    · rw [if_pos (by simp [hy])]
      have hyo : y = order := huniq y (List.mem_cons_self _ _) (hy.trans hid)
      rw [hyo]
      exact hsep
    · rw [if_neg (by simp [hy])]
      exact sameExceptPayment_refl y

/-- C8: `initPaymentSession` rejects every order whose status is neither
PENDING nor DRAFT with `PaymentProviderError`, and in every execution —
success or failure, stripe or sandbox provider — it leaves the products,
the id counter and every order column except `payment_provider` and
`payment_reference` unchanged; in particular no order's `status` changes. -/
theorem init_payment_session_guard_and_no_status_change
    (db : DB) (order : Order) (req : PaymentInitRequest) (env : StripeEnv)
    (huniq : ∀ x ∈ db.orders, x.id = order.id → x = order) :
    (order.status ≠ OrderStatus.pending ∧ order.status ≠ OrderStatus.draft →
      initPaymentSession db order req env = (db, .err "Order already processed")) ∧
    (initPaymentSession db order req env).1.products = db.products ∧
    (initPaymentSession db order req env).1.nextOrderId = db.nextOrderId ∧
    List.Forall₂ sameExceptPayment db.orders
      (initPaymentSession db order req env).1.orders := by
  have hcase : (initPaymentSession db order req env).1 = db ∨
      ∃ o', (initPaymentSession db order req env).1 = replaceOrder db o' ∧
        o'.id = order.id ∧ sameExceptPayment order o' := by
    unfold initPaymentSession
    split
    · exact Or.inl rfl
    · split
      · split
        · exact Or.inl rfl
        · split
          · exact Or.inl rfl
          · split
            · exact Or.inr ⟨_, rfl, rfl, rfl, rfl, rfl, rfl, rfl, rfl, rfl, rfl, rfl, rfl⟩
            · split
              · exact Or.inr ⟨_, rfl, rfl, rfl, rfl, rfl, rfl, rfl, rfl, rfl, rfl, rfl, rfl⟩
              · exact Or.inr ⟨_, rfl, rfl, rfl, rfl, rfl, rfl, rfl, rfl, rfl, rfl, rfl, rfl⟩
      · exact Or.inr ⟨_, rfl, rfl, rfl, rfl, rfl, rfl, rfl, rfl, rfl, rfl, rfl, rfl⟩
  refine ⟨?_, ?_, ?_, ?_⟩
  · intro h
    unfold initPaymentSession
    rw [if_pos h]
  all_goals
    rcases hcase with h | ⟨o', h, hid, hsep⟩ <;> rw [h]
  · rfl
  · rfl
  · exact List.forall₂_same.mpr (fun x _ => sameExceptPayment_refl x)
  · exact forall₂_sameExceptPayment_replace db.orders order o' huniq hid hsep

theorem init_payment_session_guard_witness :
    ((c7order.status ≠ OrderStatus.pending ∧ c7order.status ≠ OrderStatus.draft →
      initPaymentSession c7db c7order w8req w8env = (c7db, .err "Order already processed")) ∧
    (initPaymentSession c7db c7order w8req w8env).1.products = c7db.products ∧
    (initPaymentSession c7db c7order w8req w8env).1.nextOrderId = c7db.nextOrderId ∧
    List.Forall₂ sameExceptPayment c7db.orders
      (initPaymentSession c7db c7order w8req w8env).1.orders) :=
  init_payment_session_guard_and_no_status_change c7db c7order w8req w8env (by decide)

/-- All requested products resolve once the missing-ids filter is empty. -/
theorem found_of_missing_nil (db : DB) (items : List OrderItemInput)
    (hmiss : (items.map (·.product_id)).dedup.filter
      (fun pid => (findProduct db.products pid).isNone) = []) :
    ∀ it ∈ items, (findProduct db.products it.product_id).isSome = true := by
  intro it hit
  have hmem : it.product_id ∈ (items.map (·.product_id)).dedup :=
    List.mem_dedup.mpr (List.mem_map_of_mem _ hit)
  have := (List.filter_eq_nil_iff.mp hmiss) it.product_id hmem
  cases hfp : findProduct db.products it.product_id with
  | none => rw [hfp] at this; simp at this
  | some p => rfl

/-- C1: every successful creating `createOrder` call prices each line at the
promo price when one is set and the regular price otherwise, sets each line's
subtotal to unit price times quantity, and returns an order whose
`total_amount_cents` is the sum of the line subtotals and whose `total_items`
is the sum of the line quantities. -/
theorem create_order_pricing_and_totals
    (db : DB) (userId : Int) (orderIn : OrderCreate) (key freshKey : String)
    (pp : Option String) (db' : DB) (o : Order)
    (h : createOrder db userId orderIn key freshKey pp = (db', .ok o true)) :
    List.Forall₂ (fun it line =>
      ∃ p, findProduct db.products it.product_id = some p ∧
        line.quantity = it.quantity ∧
        line.unit_price_cents = p.promo_price_cents.getD p.price_cents ∧
        line.subtotal_cents = line.unit_price_cents * it.quantity)
      orderIn.items o.lines ∧
    o.total_amount_cents = (o.lines.map (·.subtotal_cents)).sum ∧
    o.total_items = (o.lines.map (·.quantity)).sum := by
  obtain ⟨hmiss, hval, hlines, hamount, hitems, hprod, horders, hstatus, huser⟩ :=
    createOrder_ok_true_inv db userId orderIn key freshKey pp db' o h
  obtain ⟨nl, hl, hf, ha, hi⟩ := buildStep_foldl_spec db.products orderIn.items
    (initialAcc db) (fun pid => rfl) (found_of_missing_nil db orderIn.items hmiss)
  have hlines2 : o.lines = nl := by
    rw [hlines, hl]
    rfl
  refine ⟨?_, ?_, ?_⟩
  · rw [hlines2]
    refine List.Forall₂.imp ?_ hf
    intro it line hline
    obtain ⟨p, hp, hlp⟩ := hline
    subst hlp
    exact ⟨p, hp, rfl, rfl, rfl⟩
  · rw [hamount, ha, hlines2]
    simp [initialAcc]
  · rw [hitems, hi, hlines2]
    simp [initialAcc]

theorem create_order_pricing_and_totals_witness :
    (exOrder.lines.map (·.subtotal_cents) = [800, 1000] ∧
     exOrder.total_amount_cents = 1800 ∧ exOrder.total_items = 3 ∧
     exOrder.lines.map (·.unit_price_cents) = [400, 1000]) ∧
    (List.Forall₂ (fun it line =>
      ∃ p, findProduct exDB.products it.product_id = some p ∧
        line.quantity = it.quantity ∧
        line.unit_price_cents = p.promo_price_cents.getD p.price_cents ∧
        line.subtotal_cents = line.unit_price_cents * it.quantity)
      exIn.items exOrder.lines ∧
    exOrder.total_amount_cents = (exOrder.lines.map (·.subtotal_cents)).sum ∧
    exOrder.total_items = (exOrder.lines.map (·.quantity)).sum) :=
  ⟨by decide,
   create_order_pricing_and_totals exDB 7 exIn "k" "f" none
     (createOrder exDB 7 exIn "k" "f" none).1 exOrder rfl⟩

/-- C4 (amended): when every line of the request names a distinct product, a
successful `createOrder` leaves every involved product with non-negative
stock, each line being accepted only with stock at least its quantity at the
moment of order creation; when the same product id appears on several lines,
each line is checked against the original stock independently, so the
combined decrement can drive the stock negative. -/
theorem create_order_stock_nonneg_distinct_lines
    (db : DB) (userId : Int) (orderIn : OrderCreate) (key freshKey : String)
    (pp : Option String) (db' : DB) (o : Order)
    (hnodup : (orderIn.items.map (·.product_id)).Nodup)
    (h : createOrder db userId orderIn key freshKey pp = (db', .ok o true)) :
    ∀ it ∈ orderIn.items, ∃ p p',
      findProduct db.products it.product_id = some p ∧
      findProduct db'.products it.product_id = some p' ∧
      it.quantity ≤ p.stock ∧
      p'.stock = p.stock - it.quantity ∧
      0 ≤ p'.stock := by
  obtain ⟨hmiss, hval, hlines, hamount, hitems, hprod, horders, hstatus, huser⟩ :=
    createOrder_ok_true_inv db userId orderIn key freshKey pp db' o h
  intro it hit
  have hfound := found_of_missing_nil db orderIn.items hmiss
  obtain ⟨p, hp⟩ : ∃ p, findProduct db.products it.product_id = some p := by
    have hs := hfound it hit
    cases hfp : findProduct db.products it.product_id with
    | none => rw [hfp] at hs; simp at hs
    | some p => exact ⟨p, rfl⟩
  have hok := validateItems_none_spec db.products orderIn.items hfound hval it hit p hp
  have hstocklaw := stock_foldl orderIn.items (initialAcc db) it.product_id
  have hqty := qtyFor_nodup orderIn.items hnodup it hit
  rw [hqty] at hstocklaw
  have hinit : findProduct (initialAcc db).products it.product_id = some p := hp
  rw [hinit, Option.map_some'] at hstocklaw
  refine ⟨p, { p with stock := p.stock - it.quantity }, hp, ?_, hok.2.2, rfl, ?_⟩
  · rw [hprod]
    exact hstocklaw
  · have := hok.2.2
    simp only []
    omega

theorem create_order_stock_nonneg_witness :
    ∃ p p', findProduct exDB.products 1 = some p ∧
      findProduct (createOrder exDB 7 exIn "k" "f" none).1.products 1 = some p' ∧
      (2 : Int) ≤ p.stock ∧
      p'.stock = p.stock - 2 ∧
      0 ≤ p'.stock :=
  create_order_stock_nonneg_distinct_lines exDB 7 exIn "k" "f" none
    (createOrder exDB 7 exIn "k" "f" none).1 exOrder (by decide) rfl
    { product_id := 1, quantity := 2 } (by decide)

/-- C5 (amended): every line of a successfully created order records a
reference price, always equal to the product's regular `price_cents`: it is
the promo-display reference when a promo is set, and it duplicates the unit
price when none is — it is never left unset. -/
theorem create_order_reference_price_always_regular
    (db : DB) (userId : Int) (orderIn : OrderCreate) (key freshKey : String)
    (pp : Option String) (db' : DB) (o : Order)
    (h : createOrder db userId orderIn key freshKey pp = (db', .ok o true)) :
    List.Forall₂ (fun it line =>
      ∃ p, findProduct db.products it.product_id = some p ∧
        line.reference_price_cents = some p.price_cents)
      orderIn.items o.lines := by
  obtain ⟨hmiss, hval, hlines, hamount, hitems, hprod, horders, hstatus, huser⟩ :=
    createOrder_ok_true_inv db userId orderIn key freshKey pp db' o h
  obtain ⟨nl, hl, hf, ha, hi⟩ := buildStep_foldl_spec db.products orderIn.items
    (initialAcc db) (fun pid => rfl) (found_of_missing_nil db orderIn.items hmiss)
  have hlines2 : o.lines = nl := by
    rw [hlines, hl]
    rfl
  rw [hlines2]
  refine List.Forall₂.imp ?_ hf
  intro it line hline
  obtain ⟨p, hp, hlp⟩ := hline
  subst hlp
  refine ⟨p, hp, ?_⟩
  cases hpr : p.promo_price_cents <;> simp [lineOf, hpr]

theorem create_order_reference_price_always_regular_witness :
    List.Forall₂ (fun it line =>
      ∃ p, findProduct exDB.products it.product_id = some p ∧
        line.reference_price_cents = some p.price_cents)
      exIn.items exOrder.lines :=
  create_order_reference_price_always_regular exDB 7 exIn "k" "f" none
    (createOrder exDB 7 exIn "k" "f" none).1 exOrder rfl

/-- C3: `createOrder`'s validation errors follow a fixed order and are
side-effect free. With a usable idempotency key and no existing order: a
non-empty set of missing product ids raises `ProductUnavailableError` naming
the missing ids (sorted); otherwise, at the first line (in request order)
whose product fails a check, an unpublished product raises
`ProductUnavailableError` and insufficient stock raises `OutOfStockError`,
unavailability being checked before stock sufficiency; and every error
outcome whatsoever returns the state unchanged. -/
theorem create_order_validation_errors
    (db : DB) (userId : Int) (orderIn : OrderCreate) (key freshKey : String)
    (pp : Option String)
    (hk1 : key ≠ "") (hk2 : key.toList.all Char.isWhitespace = false)
    (hno : findOrderByUserKey db.orders userId
      (if key = uuidPlaceholder then freshKey else key) = none) :
    ((orderIn.items.map (·.product_id)).dedup.filter
        (fun pid => (findProduct db.products pid).isNone) ≠ [] →
      createOrder db userId orderIn key freshKey pp =
        (db, .err (.productUnavailableError ("Products not found: " ++
          toString (((orderIn.items.map (·.product_id)).dedup.filter
            (fun pid => (findProduct db.products pid).isNone)).insertionSort (· ≤ ·)))))) ∧
    (∀ pre it rest p,
      orderIn.items = pre ++ it :: rest →
      (∀ x ∈ pre, lineOk db.products x) →
      (orderIn.items.map (·.product_id)).dedup.filter
        (fun pid => (findProduct db.products pid).isNone) = [] →
      findProduct db.products it.product_id = some p →
      ((p.status ≠ ProductStatus.published ∨ p.is_published = false) →
        createOrder db userId orderIn key freshKey pp =
          (db, .err (.productUnavailableError
            ("Product " ++ toString p.id ++ " is not available for purchase")))) ∧
      (p.status = ProductStatus.published → p.is_published = true →
        p.stock < it.quantity →
        createOrder db userId orderIn key freshKey pp =
          (db, .err (.outOfStockError
            ("Product " ++ toString p.id ++ " has insufficient stock"))))) ∧
    (∀ e, (createOrder db userId orderIn key freshKey pp).2 = .err e →
      (createOrder db userId orderIn key freshKey pp).1 = db) := by
  have hk2' : ¬(key.toList.all Char.isWhitespace = true) := by
    rw [hk2]; exact Bool.false_ne_true
  refine ⟨?_, ?_, ?_⟩
  · intro hmiss
    have hnonempty : (orderIn.items.map (·.product_id)).dedup ≠ [] := by
      intro hc
      apply hmiss
      rw [hc]
      rfl
    simp only [createOrder, if_neg hk1, if_neg hk2', hno, if_neg hnonempty,
      if_pos hmiss]
  · intro pre it rest p heq hpre hmiss0 hp
    have hfound0 := found_of_missing_nil db orderIn.items hmiss0
    have hprefound : ∀ x ∈ pre, (findProduct db.products x.product_id).isSome = true :=
      fun x hx => hfound0 x (by rw [heq]; exact List.mem_append_left _ hx)
    have happend := validateItems_append db.products pre (it :: rest) hprefound hpre
    have hnonempty : (orderIn.items.map (·.product_id)).dedup ≠ [] := by
      intro hc
      rw [List.dedup_eq_nil, List.map_eq_nil_iff, heq] at hc
      simp at hc
    have hmiss0' : ¬((orderIn.items.map (·.product_id)).dedup.filter
        (fun pid => (findProduct db.products pid).isNone) ≠ []) :=
      fun hc => hc hmiss0
    constructor
    · intro hbad
      have hv : validateItems db.products orderIn.items =
          some (.productUnavailableError
            ("Product " ++ toString p.id ++ " is not available for purchase")) := by
        rw [heq, happend, validateItems_cons]
        simp only [hp]
        rw [if_pos hbad]
      simp only [createOrder, if_neg hk1, if_neg hk2', hno, if_neg hnonempty,
        if_neg hmiss0', hv]
    · intro hs hf hlt
      have hv : validateItems db.products orderIn.items =
          some (.outOfStockError
            ("Product " ++ toString p.id ++ " has insufficient stock")) := by
        rw [heq, happend, validateItems_cons]
        simp only [hp]
        rw [if_neg (by simp [hs, hf]), if_pos hlt]
      simp only [createOrder, if_neg hk1, if_neg hk2', hno, if_neg hnonempty,
        if_neg hmiss0', hv]
  · intro e he
    rcases hc : createOrder db userId orderIn key freshKey pp with ⟨dbr, res⟩
    show dbr = db
    rw [hc] at he
    have he' : res = CreateResult.err e := he
    clear he
    simp only [createOrder] at hc
    split at hc
    all_goals try split at hc
    all_goals try split at hc
    all_goals try split at hc
    all_goals try split at hc
    all_goals try split at hc
    all_goals injection hc with h1 h2
    all_goals
      first
        | exact h1.symm
        | (rw [← h2] at he'; exact CreateResult.noConfusion he')

theorem create_order_validation_errors_witness :
    (((exIn.items.map (·.product_id)).dedup.filter
        (fun pid => (findProduct exDB.products pid).isNone) ≠ [] →
      createOrder exDB 7 exIn "k" "f" none =
        (exDB, .err (.productUnavailableError ("Products not found: " ++
          toString (((exIn.items.map (·.product_id)).dedup.filter
            (fun pid => (findProduct exDB.products pid).isNone)).insertionSort (· ≤ ·)))))) ∧
    (∀ pre it rest p,
      exIn.items = pre ++ it :: rest →
      (∀ x ∈ pre, lineOk exDB.products x) →
      (exIn.items.map (·.product_id)).dedup.filter
        (fun pid => (findProduct exDB.products pid).isNone) = [] →
      findProduct exDB.products it.product_id = some p →
      ((p.status ≠ ProductStatus.published ∨ p.is_published = false) →
        createOrder exDB 7 exIn "k" "f" none =
          (exDB, .err (.productUnavailableError
            ("Product " ++ toString p.id ++ " is not available for purchase")))) ∧
      (p.status = ProductStatus.published → p.is_published = true →
        p.stock < it.quantity →
        createOrder exDB 7 exIn "k" "f" none =
          (exDB, .err (.outOfStockError
            ("Product " ++ toString p.id ++ " has insufficient stock"))))) ∧
    (∀ e, (createOrder exDB 7 exIn "k" "f" none).2 = .err e →
      (createOrder exDB 7 exIn "k" "f" none).1 = exDB)) :=
  create_order_validation_errors exDB 7 exIn "k" "f" none
    (by decide) (by decide) rfl

/-- C2: when an order already exists for this `(user, idempotency key)` pair
(every key stored by `createOrder` is non-blank and is not the literal
placeholder), a second `createOrder` call with that pair and any payload
returns the stored order with `created = false` and leaves the state —
product stocks, order rows — completely unchanged. -/
theorem create_order_idempotent_short_circuit
    (db : DB) (userId : Int) (orderIn : OrderCreate) (key freshKey : String)
    (pp : Option String) (o : Order)
    (hk1 : key ≠ "") (hk2 : key.toList.all Char.isWhitespace = false)
    (hk3 : key ≠ uuidPlaceholder)
    (hfound : findOrderByUserKey db.orders userId key = some o) :
    createOrder db userId orderIn key freshKey pp = (db, .ok o false) := by
  have hk2' : ¬(key.toList.all Char.isWhitespace = true) := by rw [hk2]; exact Bool.false_ne_true
  simp only [createOrder, if_neg hk1, if_neg hk2', if_neg hk3, hfound]

theorem create_order_idempotent_short_circuit_witness :
    createOrder w2db 7 exIn "k" "f" none = (w2db, .ok w2order false) :=
  create_order_idempotent_short_circuit w2db 7 exIn "k" "f" none w2order
    (by decide) (by decide) (by decide) (by decide)

/-- C9: `handleWebhook` rejects with `PaymentProviderError` and mutates
nothing whenever the referenced order does not exist ("Order not found") or
the payload's provider differs from the order's recorded `payment_provider`
("Provider mismatch"); the returned state is the input state. -/
theorem handle_webhook_rejects_unknown_or_mismatch
    (db : DB) (data : PaymentWebhookPayload)
    (hbad : ∀ o, getOrderById db data.order_id = some o →
      o.payment_provider ≠ some data.provider) :
    handleWebhook db data =
      (db, .err (if (getOrderById db data.order_id).isNone then "Order not found"
                 else "Provider mismatch")) := by
  unfold handleWebhook
  cases h : getOrderById db data.order_id with
  | none => simp [h]
  | some o => simp [h, beq_iff_eq, hbad o h]

theorem handle_webhook_rejects_unknown_or_mismatch_witness :
    handleWebhook c7db w9data = (c7db, .err "Provider mismatch") :=
  handle_webhook_rejects_unknown_or_mismatch c7db w9data (by decide)

/-- C10: an order returned by `createOrder` always belongs to the calling
user: the idempotency lookup filters on both `user_id` and `idempotency_key`,
and a freshly created order carries the caller's id, so no call is ever
answered with another user's order. -/
theorem create_order_returns_callers_order
    (db : DB) (userId : Int) (orderIn : OrderCreate) (key freshKey : String)
    (pp : Option String) (o : Order) (created : Bool)
    (h : (createOrder db userId orderIn key freshKey pp).2 = .ok o created) :
    o.user_id = userId := by
  simp only [createOrder] at h
  split at h
  · simp at h
  · split at h
    · simp at h
    · split at h
      case _ existing heq =>
        simp at h
        have hp := List.find?_some heq
        simp only [Bool.and_eq_true, beq_iff_eq] at hp
        exact h.1 ▸ hp.1
      case _ heq =>
        split at h
        · simp at h
        · split at h
          · simp at h
          · split at h
            · simp at h
            · simp at h
              obtain ⟨h1, h2⟩ := h
              subst h1
              rfl

theorem create_order_returns_callers_order_witness : exOrder.user_id = 7 :=
  create_order_returns_callers_order exDB 7 exIn "k" "f" none exOrder true rfl

end Greencart
